import Mathlib

/-!
Formal model of the HeartChain frontend campaign subsystem, embedded from
`frontend/lib/api.ts`, `frontend/app/create/page.tsx` and
`frontend/app/campaigns/page.tsx`.

Modelling conventions:
* JavaScript strings are Lean `String`s; `trim`/`toLowerCase` are modelled
  by the structural `jsTrim`/`jsToLower` below.
* Numbers produced by parsing decimal input (`parseFloat`, `parseInt`) are
  modelled exactly as `DecimalNum` (integer mantissa with a power-of-ten
  scale) resp. `Int`; binary floating-point rounding is out of scope and a
  `NaN` result is modelled as `none`.
* Timestamps (`Date.now()`, `new Date(..).getTime()`, ISO strings
  round-tripped through `Date`) are modelled as integer epoch milliseconds.
* The browser `localStorage` collection under the `heartchain_campaigns` key
  is modelled as an explicit `List MockCampaign` (newest first, exactly as
  the code keeps it) threaded through the API-client operations; all
  operations are modelled in a browser context (`typeof window` defined).
* Outcomes of external HTTP calls (`fetch`) are inputs of the model: a
  `BackendReply` value for a create endpoint, and an oracle
  `Nat → Except String CampaignDocument` giving the outcome of the i-th
  document upload.
-/

namespace HeartChain

/-! ### Enumerated types (`lib/api.ts`) -/

inductive CampaignType where
  | individual
  | charity
  deriving DecidableEq, Repr

inductive PriorityLevel where
  | urgent
  | normal
  deriving DecidableEq, Repr

inductive CampaignStatus where
  | active
  | completed
  deriving DecidableEq, Repr

inductive DocumentType where
  | medical_bill
  | doctor_prescription
  | hospital_letter
  | id_proof
  | ngo_certificate
  | license
  | trust_deed
  | other
  deriving DecidableEq, Repr

/-! ### Exact model of parsed JavaScript numbers -/

/-- Exact value of a parsed JavaScript decimal literal: `mantissa / 10 ^ scale`.
The numbers arising in the modelled code are results of `parseFloat` on
decimal strings (or the literal `0`); they are represented exactly and
without normalisation so that all operations stay kernel-computable. -/
structure DecimalNum where
  mantissa : Int
  scale : Nat
  deriving DecidableEq, Repr

/-- The rational value denoted by a `DecimalNum`. -/
def DecimalNum.toRat (d : DecimalNum) : ℚ := (d.mantissa : ℚ) / 10 ^ d.scale

/-- Value order on parsed numbers, by cross-multiplication (equivalent to the
order of the denoted rationals, see `DecimalNum.vle_iff_toRat_le`). -/
def DecimalNum.vle (a b : DecimalNum) : Prop :=
  a.mantissa * 10 ^ b.scale ≤ b.mantissa * 10 ^ a.scale

instance : DecidableRel DecimalNum.vle := fun a b =>
  inferInstanceAs (Decidable (_ ≤ _))

/-- Equality of `Except` outcomes is decidable componentwise. -/
instance {e a : Type} [DecidableEq e] [DecidableEq a] : DecidableEq (Except e a) :=
  fun x y =>
  match x, y with
  | .ok v, .ok w =>
    decidable_of_iff (v = w) ⟨fun h => by rw [h], fun h => by injection h⟩
  | .error v, .error w =>
    decidable_of_iff (v = w) ⟨fun h => by rw [h], fun h => by injection h⟩
  | .ok _, .error _ => isFalse (fun h => Except.noConfusion h)
  | .error _, .ok _ => isFalse (fun h => Except.noConfusion h)

/-- Numeric value of a list of decimal digit characters. -/
def digitsToNat (l : List Char) : Nat :=
  l.foldl (fun a c => 10 * a + (c.toNat - 48)) 0

/-- Model of the JavaScript string method `trim`: strip leading and trailing
whitespace (for the ASCII strings arising here, `Char.isWhitespace` agrees
with the JavaScript notion). -/
def jsTrim (s : String) : String :=
  String.mk (((s.toList.dropWhile Char.isWhitespace).reverse.dropWhile
    Char.isWhitespace).reverse)

/-- Model of the JavaScript string method `toLowerCase` (ASCII lowering). -/
def jsToLower (s : String) : String := String.mk (s.toList.map Char.toLower)

/-- Model of the JavaScript builtin `parseFloat` on the value strings arising
in this code: optional leading whitespace, optional sign, decimal digits with
an optional fractional part; the longest valid prefix is parsed and `none`
models a `NaN` result (no digit found).  Exponent notation and the special
words (`Infinity`) are outside the scope of this model. -/
def jsParseFloat (s : String) : Option DecimalNum :=
  let cs := s.toList.dropWhile Char.isWhitespace
  let sign : Int := if cs.head? = some '-' then -1 else 1
  let cs := if cs.head? = some '-' ∨ cs.head? = some '+' then cs.tail else cs
  let intDigits := cs.takeWhile Char.isDigit
  let rest := cs.drop intDigits.length
  let fracDigits :=
    if rest.head? = some '.' then rest.tail.takeWhile Char.isDigit else []
  if intDigits = [] ∧ fracDigits = [] then none
  else some ⟨sign * (digitsToNat (intDigits ++ fracDigits) : Int), fracDigits.length⟩

/-- Model of the JavaScript builtin `parseInt` (implicit base 10) on the value
strings arising in this code: optional leading whitespace, optional sign,
decimal digits; `none` models a `NaN` result. -/
def jsParseInt (s : String) : Option Int :=
  let cs := s.toList.dropWhile Char.isWhitespace
  let sign : Int := if cs.head? = some '-' then -1 else 1
  let cs := if cs.head? = some '-' ∨ cs.head? = some '+' then cs.tail else cs
  let digits := cs.takeWhile Char.isDigit
  if digits = [] then none else some (sign * (digitsToNat digits : Int))

/-! ### Data model (`lib/api.ts`) -/

/-- `CampaignDocument` of `lib/api.ts`. -/
structure CampaignDocument where
  ipfs_hash : String
  document_type : DocumentType
  filename : String
  mime_type : String
  uploaded_at : Option String
  deriving DecidableEq, Repr

/-- `IndividualCampaignCreateRequest` of `lib/api.ts`.  Optional fields are
`Option`s; `target_amount` and `duration_days` are parsed numbers (`none`
models `NaN`). -/
structure IndividualCampaignCreateRequest where
  title : String
  description : String
  target_amount : Option DecimalNum
  duration_days : Option Int
  category : String
  priority : Option PriorityLevel
  image_url : Option String
  beneficiary_name : String
  phone_number : String
  residential_address : String
  documents : List CampaignDocument
  deriving DecidableEq, Repr

/-- `CharityCampaignCreateRequest` of `lib/api.ts`. -/
structure CharityCampaignCreateRequest where
  title : String
  description : String
  target_amount : Option DecimalNum
  duration_days : Option Int
  category : String
  priority : Option PriorityLevel
  image_url : Option String
  organization_name : String
  contact_person_name : String
  contact_phone_number : String
  official_address : String
  documents : List CampaignDocument
  deriving DecidableEq, Repr

/-- `CreateResponse` of `lib/api.ts`. -/
structure CreateResponse where
  tx_hash : String
  cid : String
  status : String
  deriving DecidableEq, Repr

/-- `MockCampaign` of `lib/api.ts` (the Stored Campaign kept in the local
index).  Timestamps are epoch milliseconds.  The fields from
`beneficiary_name` through `official_address` are not declared in the
TypeScript interface and are never set by the code; they are carried here as
`Option`s (with `none` modelling the absent key) so that statements about
which identity fields a stored record populates can be expressed. -/
structure MockCampaign where
  id : String
  cid : String
  campaign_type : CampaignType
  title : String
  description : String
  target_amount : Option DecimalNum
  raised_amount : DecimalNum
  duration_days : Option Int
  category : String
  priority : PriorityLevel
  status : CampaignStatus
  image_url : Option String
  organization_name : Option String
  beneficiary_name : Option String
  phone_number : Option String
  residential_address : Option String
  contact_person_name : Option String
  contact_phone_number : Option String
  official_address : Option String
  created_at : Int
  end_date : Option Int
  blockchain_tx_hash : Option String
  on_chain_id : Option String
  documents_count : Option Nat
  deriving DecidableEq, Repr

/-! ### API client (`lib/api.ts`) -/

/-- Decoded JSON body of a failed backend response: an object with an
optional string `detail` member.  Other decodable JSON shapes behave like an
object without `detail`. -/
structure ErrorBody where
  detail : Option String
  deriving DecidableEq, Repr

/-- Outcome of an external `fetch` to a create endpoint: either a successful
response carrying a decoded value, or a failure (`response.ok` false) with
the HTTP status and the decoded error body (`none` when the body is not
decodable as JSON). -/
inductive BackendReply (α : Type) where
  | ok (value : α)
  | fail (status : Nat) (body : Option ErrorBody)
  deriving DecidableEq, Repr

/-- Model of `ApiClient.request`: on a non-ok response the thrown error
message is `error.detail || HTTP <status>` where a body that fails to decode
is replaced by `{ detail: 'An error occurred' }`. -/
def requestResult {α : Type} : BackendReply α → Except String α
  | .ok v => .ok v
  | .fail status body =>
    .error
      (match body with
       | none => "An error occurred"
       | some b =>
         match b.detail with
         | some d => if d = "" then "HTTP " ++ toString status else d
         | none => "HTTP " ++ toString status)

/-- Model of `ApiClient.saveToLocalIndex`: `unshift` prepends the new record
to the stored collection. -/
def saveToLocalIndex (campaign : MockCampaign) (idx : List MockCampaign) :
    List MockCampaign :=
  campaign :: idx

/-- Model of `ApiClient.createIndividualCampaign`: posts the payload; on a
failed response the error from `request` propagates and the index is
untouched; on success the synthesised Stored Campaign is prepended.
`image_url: data.image_url || null` turns an empty string into `null`;
`priority: data.priority || 'normal'` defaults a missing priority. -/
def createIndividualCampaign (data : IndividualCampaignCreateRequest)
    (reply : BackendReply CreateResponse) (now : Int)
    (idx : List MockCampaign) :
    Except String CreateResponse × List MockCampaign :=
  match requestResult reply with
  | .error e => (.error e, idx)
  | .ok res =>
    (.ok res,
     saveToLocalIndex
       { id := res.cid
         cid := res.cid
         campaign_type := .individual
         title := data.title
         description := data.description
         target_amount := data.target_amount
         raised_amount := ⟨0, 0⟩
         duration_days := data.duration_days
         category := data.category
         priority := data.priority.getD .normal
         status := .active
         image_url :=
           match data.image_url with
           | some s => if s = "" then none else some s
           | none => none
         organization_name := none
         beneficiary_name := none
         phone_number := none
         residential_address := none
         contact_person_name := none
         contact_phone_number := none
         official_address := none
         created_at := now
         end_date := none
         blockchain_tx_hash := some res.tx_hash
         on_chain_id := none
         documents_count := none } idx)

/-- Model of `ApiClient.createCharityCampaign`; differs from the individual
variant in the endpoint, `campaign_type` and the stored
`organization_name`. -/
def createCharityCampaign (data : CharityCampaignCreateRequest)
    (reply : BackendReply CreateResponse) (now : Int)
    (idx : List MockCampaign) :
    Except String CreateResponse × List MockCampaign :=
  match requestResult reply with
  | .error e => (.error e, idx)
  | .ok res =>
    (.ok res,
     saveToLocalIndex
       { id := res.cid
         cid := res.cid
         campaign_type := .charity
         title := data.title
         description := data.description
         target_amount := data.target_amount
         raised_amount := ⟨0, 0⟩
         duration_days := data.duration_days
         category := data.category
         priority := data.priority.getD .normal
         status := .active
         image_url :=
           match data.image_url with
           | some s => if s = "" then none else some s
           | none => none
         organization_name := some data.organization_name
         beneficiary_name := none
         phone_number := none
         residential_address := none
         contact_person_name := none
         contact_phone_number := none
         official_address := none
         created_at := now
         end_date := none
         blockchain_tx_hash := some res.tx_hash
         on_chain_id := none
         documents_count := none } idx)

/-- Optional filters of `ApiClient.getCampaigns`. -/
structure GetCampaignsParams where
  campaign_type : Option CampaignType
  category : Option String
  deriving DecidableEq, Repr

/-- Model of `ApiClient.getCampaigns` in a browser context: the whole local
index, narrowed by the exact-match filters when present. -/
def getCampaigns (params : GetCampaignsParams) (idx : List MockCampaign) :
    List MockCampaign :=
  let r1 :=
    match params.campaign_type with
    | some t => idx.filter (fun c => c.campaign_type = t)
    | none => idx
  match params.category with
  | some cat => r1.filter (fun c => c.category = cat)
  | none => r1

/-- Model of `ApiClient.getCampaign` in a browser context: linear scan of the
local index for `id` equality (`campaigns.find(c => c.id === id) || null`). -/
def getCampaign (id : String) (idx : List MockCampaign) : Option MockCampaign :=
  idx.find? (fun c => c.id == id)

/-! ### Creation wizard (`app/create/page.tsx`) -/

/-- The form state of the creation wizard (`FormData` of
`app/create/page.tsx`).  `campaignType` is `none` while unselected (the
empty-string sentinel); `documents` records the selected files by name. -/
structure FormData where
  campaignType : Option CampaignType
  title : String
  category : String
  targetAmount : String
  durationDays : String
  description : String
  imageUrl : String
  impactPlan : String
  beneficiaryName : String
  phoneNumber : String
  residentialAddress : String
  organizationName : String
  contactPersonName : String
  contactPhoneNumber : String
  officialAddress : String
  documents : List String
  documentTypes : List DocumentType
  deriving DecidableEq, Repr

/-- Truth of `parseFloat(s) <= 0` in JavaScript: false when the parse result
is `NaN` (every comparison with `NaN` is false). -/
def parsedLeZero (s : String) : Prop :=
  match jsParseFloat s with
  | some v => v.mantissa ≤ 0
  | none => False

instance (s : String) : Decidable (parsedLeZero s) := by
  unfold parsedLeZero
  exact match jsParseFloat s with
  | some _ => inferInstanceAs (Decidable (_ ≤ _))
  | none => inferInstanceAs (Decidable False)

/-- Model of `validateStep` of `app/create/page.tsx`: `none` means the step
validates (the function returns `true`); `some msg` means it fails after
`setError(msg)`.  The conditions transcribe the source's checks, with
JavaScript string falsiness (`!s`, `!s.trim()`) rendered as equality with
`""`. -/
def validateStep (step : Nat) (fd : FormData) : Option String :=
  match step with
  | 1 =>
    if fd.campaignType = none then
      some "Please select a campaign type"
    else if (jsTrim fd.title) = "" ∨ fd.title.length < 3 then
      some "Title must be at least 3 characters"
    else if fd.category = "" then
      some "Please select a category"
    else if fd.targetAmount = "" ∨ parsedLeZero fd.targetAmount then
      some "Please enter a valid target amount"
    else if fd.campaignType = some .individual then
      if (jsTrim fd.beneficiaryName) = "" then
        some "Beneficiary name is required"
      else if (jsTrim fd.phoneNumber) = "" ∨ fd.phoneNumber.length < 10 ∨
          fd.phoneNumber.length > 20 then
        some "Phone number must be between 10 and 20 characters"
      else if (jsTrim fd.residentialAddress) = "" ∨ fd.residentialAddress.length < 5 then
        some "Residential address must be at least 5 characters"
      else
        none
    else
      if (jsTrim fd.organizationName) = "" then
        some "Organization name is required"
      else if (jsTrim fd.contactPersonName) = "" then
        some "Contact person name is required"
      else if (jsTrim fd.contactPhoneNumber) = "" ∨ fd.contactPhoneNumber.length < 10 ∨
          fd.contactPhoneNumber.length > 20 then
        some "Phone number must be between 10 and 20 characters"
      else if (jsTrim fd.officialAddress) = "" ∨ fd.officialAddress.length < 5 then
        some "Official address must be at least 5 characters"
      else
        none
  | 2 =>
    if (jsTrim fd.description) = "" ∨ fd.description.length < 10 then
      some "Description must be at least 10 characters"
    else
      none
  | _ => none

/-- Model of the sequential document-upload loop of `handleSubmit`.
`uploads i` is the outcome of the i-th `api.uploadDocument` call (an input of
the model, since the call is an external `fetch`); the resolved document type
`documentTypes[i] || 'other'` only feeds that call and does not influence the
modelled outcome.  Returns the collected documents or the first failure
(rethrown with the file's name) together with the number of uploads
attempted. -/
def uploadLoop (uploads : Nat → Except String CampaignDocument) :
    Nat → List String → Except String (List CampaignDocument) × Nat
  | _, [] => (.ok [], 0)
  | i, f :: rest =>
    match uploads i with
    | .error _ => (.error ("Failed to upload document: " ++ f), 1)
    | .ok d =>
      match uploadLoop uploads (i + 1) rest with
      | (.ok ds, n) => (.ok (d :: ds), n + 1)
      | (.error e, n) => (.error e, n + 1)

/-- Observable outcome of one run of `handleSubmit`: the result surfaced to
the page (success response or error message), the local index afterwards,
how many document uploads were attempted, and whether a campaign-creation
request was sent at all. -/
structure SubmitResult where
  outcome : Except String CreateResponse
  indexAfter : List MockCampaign
  uploadsAttempted : Nat
  createRequested : Bool
  deriving Repr

/-- Model of `handleSubmit` of `app/create/page.tsx`: upload the documents
sequentially (first failure aborts everything), combine the description with
the impact plan when the latter is non-empty, build the variant payload with
`priority: 'normal'`, send it to the matching create operation.  `reply` is
the outcome of the external create endpoint; `now` the creation timestamp. -/
def handleSubmit (fd : FormData) (uploads : Nat → Except String CampaignDocument)
    (reply : BackendReply CreateResponse) (now : Int)
    (idx : List MockCampaign) : SubmitResult :=
  match uploadLoop uploads 0 fd.documents with
  | (.error e, n) => ⟨.error e, idx, n, false⟩
  | (.ok docs, n) =>
    let fullDescription :=
      if fd.impactPlan = "" then fd.description
      else fd.description ++ "\n\n---\n\n**How Funds Will Be Used:**\n" ++ fd.impactPlan
    if fd.campaignType = some .individual then
      let payload : IndividualCampaignCreateRequest :=
        { title := fd.title
          description := fullDescription
          target_amount := jsParseFloat fd.targetAmount
          duration_days := jsParseInt fd.durationDays
          category := fd.category
          priority := some .normal
          image_url := if fd.imageUrl = "" then none else some fd.imageUrl
          beneficiary_name := fd.beneficiaryName
          phone_number := fd.phoneNumber
          residential_address := fd.residentialAddress
          documents := docs }
      let r := createIndividualCampaign payload reply now idx
      ⟨r.1, r.2, n, true⟩
    else
      let payload : CharityCampaignCreateRequest :=
        { title := fd.title
          description := fullDescription
          target_amount := jsParseFloat fd.targetAmount
          duration_days := jsParseInt fd.durationDays
          category := fd.category
          priority := some .normal
          image_url := if fd.imageUrl = "" then none else some fd.imageUrl
          organization_name := fd.organizationName
          contact_person_name := fd.contactPersonName
          contact_phone_number := fd.contactPhoneNumber
          official_address := fd.officialAddress
          documents := docs }
      let r := createCharityCampaign payload reply now idx
      ⟨r.1, r.2, n, true⟩

/-! ### Browse page (`app/campaigns/page.tsx`) -/

/-- The frontend `Campaign` shape, restricted to the fields the browse page's
filter/sort engine reads (`title`, `description`, `category`, `raised`,
`daysLeft`, `isHighPriority`, `createdAt`) plus the `id`.  Presentation-only
fields (image, creator, contributors estimate, updates, donors) are omitted;
`createdAt` is kept as the epoch milliseconds that
`new Date(c.createdAt).getTime()` yields. -/
structure Campaign where
  id : String
  title : String
  description : String
  category : String
  raised : DecimalNum
  daysLeft : Int
  isHighPriority : Bool
  createdAt : Int
  deriving DecidableEq, Repr

/-- Ceiling division by a positive constant, as computed by
`Math.ceil(a / b)` on integer operands. -/
def jsCeilDiv (a b : Int) : Int := -((-a).fdiv b)

/-- The end date used by `apiToFrontendCampaign`: the explicit `end_date`
when present, otherwise `created_at + duration_days * 86400000`; `none`
models the `NaN` arising from an unparseable `duration_days`. -/
def endDateMs (c : MockCampaign) : Option Int :=
  match c.end_date with
  | some e => some e
  | none => c.duration_days.map (fun d => c.created_at + d * 86400000)

/-- The `daysLeft` computation of `apiToFrontendCampaign`:
`Math.max(0, Math.ceil((endDate.getTime() - Date.now()) / (1000 * 60 * 60 * 24)))`. -/
def daysLeftOf (now : Int) (c : MockCampaign) : Option Int :=
  (endDateMs c).map (fun e => max 0 (jsCeilDiv (e - now) (1000 * 60 * 60 * 24)))

/-- Replace the first space, as JavaScript `.replace(' ', '_')` does (a
string pattern replaces only the first occurrence). -/
def replaceFirstSpace : List Char → List Char
  | [] => []
  | c :: cs => if c = ' ' then '_' :: cs else c :: replaceFirstSpace cs

/-- Model of `apiToFrontendCampaign` of `app/campaigns/page.tsx`, restricted
to the fields of `Campaign`; `none` models a record whose `daysLeft` is
`NaN` (unparseable duration and no explicit end date). -/
def apiToFrontendCampaign (now : Int) (c : MockCampaign) : Option Campaign :=
  (daysLeftOf now c).map (fun dl =>
    { id := c.id
      title := c.title
      description := c.description
      category :=
        let m := String.mk (replaceFirstSpace (jsToLower c.category).toList)
        if m = "" then "community" else m
      raised := c.raised_amount
      daysLeft := dl
      isHighPriority := c.priority = .urgent
      createdAt := c.created_at })

/-- The four sort keys of the browse page. -/
inductive SortOption where
  | newest
  | ending
  | funded
  | priority
  deriving DecidableEq, Repr

/-- Order induced by the "newest" comparator
`(a, b) => new Date(b.createdAt).getTime() - new Date(a.createdAt).getTime()`:
`a` may precede `b` iff the comparator is `≤ 0`. -/
def newestRel (a b : Campaign) : Prop := b.createdAt ≤ a.createdAt

/-- Order induced by the "ending" comparator `(a, b) => a.daysLeft - b.daysLeft`. -/
def endingRel (a b : Campaign) : Prop := a.daysLeft ≤ b.daysLeft

/-- Order induced by the "funded" comparator `(a, b) => b.raised - a.raised`. -/
def fundedRel (a b : Campaign) : Prop := DecimalNum.vle b.raised a.raised

/-- Order induced by the "priority" comparator: when the priorities differ
the high-priority entry precedes, otherwise days-remaining ascending. -/
def priorityRel (a b : Campaign) : Prop :=
  if a.isHighPriority ≠ b.isHighPriority then a.isHighPriority = true
  else a.daysLeft ≤ b.daysLeft

instance : DecidableRel newestRel := fun a b =>
  inferInstanceAs (Decidable (_ ≤ _))

instance : DecidableRel endingRel := fun a b =>
  inferInstanceAs (Decidable (_ ≤ _))

instance : DecidableRel fundedRel := fun a b =>
  inferInstanceAs (Decidable (DecimalNum.vle _ _))

instance : DecidableRel priorityRel := fun a b => by
  unfold priorityRel
  infer_instance

/-- The ordering step of `filteredCampaigns`.  `Array.prototype.sort` is a
stable sort with respect to the comparator; it is modelled by the (stable)
insertion sort over the order each comparator induces. -/
def sortCampaigns : SortOption → List Campaign → List Campaign
  | .newest, l => l.insertionSort newestRel
  | .ending, l => l.insertionSort endingRel
  | .funded, l => l.insertionSort fundedRel
  | .priority, l => l.insertionSort priorityRel

/-- Case-insensitive substring test, as
`c.title.toLowerCase().includes(query)` with an already-lowercased query. -/
def jsIncludes (hay needle : String) : Bool :=
  decide (needle.toList <:+: hay.toList)

/-- The UI controls feeding `filteredCampaigns`; `categoryFilter = none`
models the `'all'` sentinel. -/
structure ListControls where
  searchQuery : String
  categoryFilter : Option String
  priorityOnly : Bool
  sortBy : SortOption
  deriving DecidableEq, Repr

/-- Model of the `filteredCampaigns` memo of `app/campaigns/page.tsx`:
search filter, category filter, priority filter, then the selected sort. -/
def filteredCampaigns (ctl : ListControls) (campaigns : List Campaign) :
    List Campaign :=
  let r1 :=
    if ctl.searchQuery = "" then campaigns
    else
      campaigns.filter (fun c =>
        jsIncludes (jsToLower c.title) (jsToLower ctl.searchQuery) ||
        jsIncludes (jsToLower c.description) (jsToLower ctl.searchQuery))
  let r2 :=
    match ctl.categoryFilter with
    | none => r1
    | some cat => r1.filter (fun c => c.category = cat)
  let r3 := if ctl.priorityOnly then r2.filter (fun c => c.isHighPriority) else r2
  sortCampaigns ctl.sortBy r3

/-! ### Specification-side definitions

These definitions follow the wording of the specification (ordered check
lists, identity-field groups, operation sequences); theorems below compare
them with the definitions embedded from the source. -/

/-- First-failing-check semantics: the message of the first check in the
list that does not pass, `none` when all pass. -/
def firstFailure : List (Bool × String) → Option String
  | [] => none
  | (ok, msg) :: rest => if ok then firstFailure rest else some msg

/-- The ordered list of checks the basic-info step actually performs, each
given as a passing condition with the message shown when it is the first to
fail. -/
def basicInfoChecks (fd : FormData) : List (Bool × String) :=
  [(decide (fd.campaignType ≠ none), "Please select a campaign type"),
   (decide ((jsTrim fd.title) ≠ "" ∧ 3 ≤ fd.title.length),
     "Title must be at least 3 characters"),
   (decide (fd.category ≠ ""), "Please select a category"),
   (decide (fd.targetAmount ≠ "" ∧ ¬ parsedLeZero fd.targetAmount),
     "Please enter a valid target amount")] ++
  (if fd.campaignType = some .individual then
    [(decide ((jsTrim fd.beneficiaryName) ≠ ""), "Beneficiary name is required"),
     (decide ((jsTrim fd.phoneNumber) ≠ "" ∧ 10 ≤ fd.phoneNumber.length ∧
        fd.phoneNumber.length ≤ 20),
       "Phone number must be between 10 and 20 characters"),
     (decide ((jsTrim fd.residentialAddress) ≠ "" ∧ 5 ≤ fd.residentialAddress.length),
       "Residential address must be at least 5 characters")]
  else
    [(decide ((jsTrim fd.organizationName) ≠ ""), "Organization name is required"),
     (decide ((jsTrim fd.contactPersonName) ≠ ""), "Contact person name is required"),
     (decide ((jsTrim fd.contactPhoneNumber) ≠ "" ∧ 10 ≤ fd.contactPhoneNumber.length ∧
        fd.contactPhoneNumber.length ≤ 20),
       "Phone number must be between 10 and 20 characters"),
     (decide ((jsTrim fd.officialAddress) ≠ "" ∧ 5 ≤ fd.officialAddress.length),
       "Official address must be at least 5 characters")])

/-- The specification's reading of the target-amount check: the field parses
to a positive number. -/
def parseablePositive (s : String) : Prop :=
  ∃ v, jsParseFloat s = some v ∧ 0 < v.toRat

/-- The individual identity-field group of a stored record is populated. -/
def individualGroupPopulated (r : MockCampaign) : Prop :=
  r.beneficiary_name ≠ none ∧ r.phone_number ≠ none ∧ r.residential_address ≠ none

/-- The charity identity-field group of a stored record is populated. -/
def charityGroupPopulated (r : MockCampaign) : Prop :=
  r.organization_name ≠ none ∧ r.contact_person_name ≠ none ∧
  r.contact_phone_number ≠ none ∧ r.official_address ≠ none

/-- Exactly one of the two identity-field groups is populated. -/
def exactlyOneGroupPopulated (r : MockCampaign) : Prop :=
  (individualGroupPopulated r ∧ ¬ charityGroupPopulated r) ∨
  (¬ individualGroupPopulated r ∧ charityGroupPopulated r)

instance (r : MockCampaign) : Decidable (individualGroupPopulated r) := by
  unfold individualGroupPopulated
  infer_instance

instance (r : MockCampaign) : Decidable (charityGroupPopulated r) := by
  unfold charityGroupPopulated
  infer_instance

instance (r : MockCampaign) : Decidable (exactlyOneGroupPopulated r) := by
  unfold exactlyOneGroupPopulated
  infer_instance

/-- The operations of the modelled subsystem that touch the local index. -/
inductive Op where
  | createInd (data : IndividualCampaignCreateRequest)
      (reply : BackendReply CreateResponse) (now : Int)
  | createChar (data : CharityCampaignCreateRequest)
      (reply : BackendReply CreateResponse) (now : Int)
  | listOp (params : GetCampaignsParams)
  | getOp (id : String)

/-- Effect of an operation on the local index (the read operations return
data but leave the index unchanged). -/
def applyOp : Op → List MockCampaign → List MockCampaign
  | .createInd data reply now, idx => (createIndividualCampaign data reply now idx).2
  | .createChar data reply now, idx => (createCharityCampaign data reply now idx).2
  | .listOp _, idx => idx
  | .getOp _, idx => idx

/-! ### Order instances for the sort comparators -/

instance : IsTotal Campaign newestRel :=
  ⟨fun a b => le_total b.createdAt a.createdAt⟩

instance : IsTrans Campaign newestRel :=
  ⟨fun _ _ _ hab hbc => le_trans hbc hab⟩

instance : IsTotal Campaign endingRel :=
  ⟨fun a b => le_total a.daysLeft b.daysLeft⟩

instance : IsTrans Campaign endingRel :=
  ⟨fun _ _ _ hab hbc => le_trans hab hbc⟩

instance : IsTotal Campaign fundedRel := by
  constructor
  intro a b
  unfold fundedRel DecimalNum.vle
  exact le_total _ _

instance : IsTrans Campaign fundedRel := by
  constructor
  intro a b c hab hbc
  unfold fundedRel DecimalNum.vle at hab hbc ⊢
  have h1 := mul_le_mul_of_nonneg_right hbc
    (pow_nonneg (by norm_num : (0:ℤ) ≤ 10) a.raised.scale)
  have h2 := mul_le_mul_of_nonneg_right hab
    (pow_nonneg (by norm_num : (0:ℤ) ≤ 10) c.raised.scale)
  have hpos : (0:ℤ) < 10 ^ b.raised.scale := pow_pos (by norm_num) _
  nlinarith [h1, h2, hpos]

instance : IsTotal Campaign priorityRel := by
  constructor
  intro a b
  unfold priorityRel
  cases ha : a.isHighPriority <;> cases hb : b.isHighPriority <;>
    simp [ha, hb] <;> omega

instance : IsTrans Campaign priorityRel := by
  constructor
  intro a b c hab hbc
  unfold priorityRel at hab hbc ⊢
  cases ha : a.isHighPriority <;> cases hb : b.isHighPriority <;>
    cases hc : c.isHighPriority <;> simp_all <;> omega

/-- The initial form state of the wizard (`useState` initialiser), with the
duration field defaulted to `"90"`. -/
def emptyForm : FormData :=
  { campaignType := none
    title := ""
    category := ""
    targetAmount := ""
    durationDays := "90"
    description := ""
    imageUrl := ""
    impactPlan := ""
    beneficiaryName := ""
    phoneNumber := ""
    residentialAddress := ""
    organizationName := ""
    contactPersonName := ""
    contactPhoneNumber := ""
    officialAddress := ""
    documents := []
    documentTypes := [] }

/-- A filled individual form whose target-amount field has no parseable
numeric prefix. -/
def nanAmountForm : FormData :=
  { emptyForm with
    campaignType := some .individual
    title := "Help Maria"
    category := "Medical"
    targetAmount := "abc"
    beneficiaryName := "Maria Lopez"
    phoneNumber := "5551234567"
    residentialAddress := "123 Main St" }

/-- The same form with a valid amount but a title of three spaces. -/
def blankTitleForm : FormData :=
  { nanAmountForm with
    targetAmount := "1000"
    title := "   " }

/-! ### Concrete sample data used by witnesses and counterexamples -/

/-- A successful backend create response. -/
def sampleRes : CreateResponse :=
  { tx_hash := "0xabc", cid := "bafy123", status := "pending" }

/-- A successfully uploaded document. -/
def sampleDoc : CampaignDocument :=
  { ipfs_hash := "QmDoc", document_type := .medical_bill, filename := "bill.pdf",
    mime_type := "application/pdf", uploaded_at := none }

/-- An upload oracle whose second call (index 1) fails. -/
def uploadsSecondFails : Nat → Except String CampaignDocument :=
  fun i => if i = 1 then .error "Upload failed" else .ok sampleDoc

/-- An upload oracle that always fails (never consulted when a form has no
documents). -/
def noUploads : Nat → Except String CampaignDocument :=
  fun _ => .error "Upload failed"

/-- A valid individual form carrying three documents. -/
def threeDocsForm : FormData :=
  { nanAmountForm with
    targetAmount := "1000"
    description := "Medical bills after surgery"
    documents := ["a.pdf", "b.pdf", "c.pdf"]
    documentTypes := [.medical_bill, .id_proof, .other] }

/-- A valid individual form whose duration field holds `"400"`. -/
def duration400Form : FormData :=
  { nanAmountForm with
    targetAmount := "1000"
    durationDays := "400"
    description := "Medical bills after surgery" }

/-- A concrete individual creation payload. -/
def indSampleRequest : IndividualCampaignCreateRequest :=
  { title := "Help Maria", description := "Medical bills after surgery",
    target_amount := some ⟨1000, 0⟩, duration_days := some 30,
    category := "Medical", priority := some .normal, image_url := none,
    beneficiary_name := "Maria Lopez", phone_number := "5551234567",
    residential_address := "123 Main St", documents := [] }

/-- A concrete charity creation payload (with the priority field omitted). -/
def charSampleRequest : CharityCampaignCreateRequest :=
  { title := "Clean Water", description := "Wells for the village",
    target_amount := some ⟨5000, 0⟩, duration_days := some 60,
    category := "Community", priority := none, image_url := none,
    organization_name := "WaterOrg", contact_person_name := "Ana Diaz",
    contact_phone_number := "5557654321", official_address := "1 Org Plaza",
    documents := [] }

/-- A concrete stored campaign, as an individual creation of
`indSampleRequest` at time 0 produces it. -/
def sampleStored : MockCampaign :=
  { id := "bafy123", cid := "bafy123", campaign_type := .individual,
    title := "Help Maria", description := "Medical bills after surgery",
    target_amount := some ⟨1000, 0⟩, raised_amount := ⟨0, 0⟩,
    duration_days := some 30, category := "Medical", priority := .normal,
    status := .active, image_url := none, organization_name := none,
    beneficiary_name := none, phone_number := none,
    residential_address := none, contact_person_name := none,
    contact_phone_number := none, official_address := none, created_at := 0,
    end_date := none, blockchain_tx_hash := some "0xabc", on_chain_id := none,
    documents_count := none }

/-- The frontend view of `sampleStored` at time 0 (thirty days left). -/
def sampleFrontend : Campaign :=
  { id := "bafy123", title := "Help Maria",
    description := "Medical bills after surgery", category := "medical",
    raised := ⟨0, 0⟩, daysLeft := 30, isHighPriority := false, createdAt := 0 }

/-- A neutral frontend campaign from which the sort examples are built. -/
def baseCampaign : Campaign :=
  { id := "", title := "", description := "", category := "",
    raised := ⟨0, 0⟩, daysLeft := 0, isHighPriority := false, createdAt := 0 }

/-- Campaign created at time 1. -/
def campT1 : Campaign := { baseCampaign with id := "t1", createdAt := 1 }

/-- Campaign created at time 2. -/
def campT2 : Campaign := { baseCampaign with id := "t2", createdAt := 2 }

/-- Campaign created at time 3. -/
def campT3 : Campaign := { baseCampaign with id := "t3", createdAt := 3 }

/-- Campaign with raised amount 10. -/
def campR10 : Campaign := { baseCampaign with id := "r10", raised := ⟨10, 0⟩ }

/-- Campaign with raised amount 50. -/
def campR50 : Campaign := { baseCampaign with id := "r50", raised := ⟨50, 0⟩ }

/-- Campaign with raised amount 5. -/
def campR5 : Campaign := { baseCampaign with id := "r5", raised := ⟨5, 0⟩ }

/-- A high-priority campaign with 7 days left. -/
def campHigh : Campaign :=
  { baseCampaign with id := "hp", isHighPriority := true, daysLeft := 7 }

/-- A normal-priority campaign with 7 days left. -/
def campNorm1 : Campaign := { baseCampaign with id := "n1", daysLeft := 7 }

/-- Another normal-priority campaign with 7 days left. -/
def campNorm2 : Campaign := { baseCampaign with id := "n2", daysLeft := 7 }

/-! ### Supporting lemmas -/

theorem DecimalNum.vle_iff_toRat_le (a b : DecimalNum) :
    a.vle b ↔ a.toRat ≤ b.toRat := by
  unfold DecimalNum.vle DecimalNum.toRat
  rw [div_le_div_iff (by positivity) (by positivity)]
  constructor
  · intro h
    exact_mod_cast h
  · intro h
    exact_mod_cast h

theorem firstFailure_cons_decide (p : Prop) [Decidable p] (m : String)
    (rest : List (Bool × String)) :
    firstFailure ((decide p, m) :: rest) =
      if p then firstFailure rest else some m := by
  by_cases h : p <;> simp [firstFailure, h]

theorem jsCeilDiv_eq_ceil (a : Int) (n : Nat) (hn : 0 < n) :
    jsCeilDiv a n = ⌈(a : ℚ) / (n : ℚ)⌉ := by
  unfold jsCeilDiv
  rw [Int.fdiv_eq_ediv _ (by exact_mod_cast hn.le)]
  rw [show ((a : ℚ) / (n : ℚ)) = -((((-a : ℤ) : ℚ)) / ((n : ℕ) : ℚ)) by push_cast; ring]
  rw [Int.ceil_neg, Rat.floor_intCast_div_natCast]

/-! ### Claim C1 — basic-info validation -/

theorem firstFailure_eq_none_iff (l : List (Bool × String)) :
    firstFailure l = none ↔ ∀ p ∈ l, p.1 = true := by
  induction l with
  | nil => simp [firstFailure]
  | cons hd tl ih =>
    obtain ⟨ok, msg⟩ := hd
    cases ok <;> simp [firstFailure, ih]

theorem check_step {cNeg cPos : Prop} [Decidable cNeg] [Decidable cPos]
    {m : String} {rest restR : Option String}
    (h : cPos ↔ ¬ cNeg) (hrest : ¬ cNeg → rest = restR) :
    (if cNeg then some m else rest) = (if cPos then restR else some m) := by
  by_cases hc : cNeg
  · simp [hc, h]
  · simp [hc, h, hrest hc]

theorem validateStep1_eq_firstFailure (fd : FormData) :
    validateStep 1 fd = firstFailure (basicInfoChecks fd) := by
  unfold validateStep basicInfoChecks
  simp only [List.cons_append, List.nil_append]
  rw [firstFailure_cons_decide]
  refine check_step Iff.rfl fun h1 => ?_
  rw [firstFailure_cons_decide]
  refine check_step (by rw [not_or, not_lt]) fun h2 => ?_
  rw [firstFailure_cons_decide]
  refine check_step Iff.rfl fun h3 => ?_
  rw [firstFailure_cons_decide]
  refine check_step (by rw [not_or]) fun h4 => ?_
  by_cases hvar : fd.campaignType = some CampaignType.individual
  · simp only [if_pos hvar]
    rw [firstFailure_cons_decide]
    refine check_step Iff.rfl fun h5 => ?_
    rw [firstFailure_cons_decide]
    refine check_step (by rw [not_or, not_or, not_lt, gt_iff_lt, not_lt]) fun h6 => ?_
    rw [firstFailure_cons_decide]
    refine check_step (by rw [not_or, not_lt]) fun h7 => ?_
    rfl
  · simp only [if_neg hvar]
    rw [firstFailure_cons_decide]
    refine check_step Iff.rfl fun h5 => ?_
    rw [firstFailure_cons_decide]
    refine check_step Iff.rfl fun h6 => ?_
    rw [firstFailure_cons_decide]
    refine check_step (by rw [not_or, not_or, not_lt, gt_iff_lt, not_lt]) fun h7 => ?_
    rw [firstFailure_cons_decide]
    refine check_step (by rw [not_or, not_lt]) fun h8 => ?_
    rfl

/-- Claim C1, counterexample.  The claim's target-amount check ("a parseable
positive number") fails on `"abc"`, yet the step validates: `parseFloat`
yields `NaN` and `NaN <= 0` is false, so the code's check passes.  And on a
title of three spaces every check listed by the claim passes (length 3 ≥ 3),
yet the step fails with the title message because the code also requires the
trimmed title to be non-empty.  So validation neither fails exactly when a
listed check fails nor succeeds exactly when all listed checks pass. -/
theorem basicInfo_claimed_checks_counterexample :
    (jsParseFloat nanAmountForm.targetAmount = none ∧
      ¬ parseablePositive nanAmountForm.targetAmount ∧
      validateStep 1 nanAmountForm = none) ∧
    (blankTitleForm.title.length = 3 ∧
      jsTrim blankTitleForm.title = "" ∧
      validateStep 1 blankTitleForm = some "Title must be at least 3 characters") := by
  refine ⟨⟨by decide, ?_, by decide⟩, by decide, by decide, by decide⟩
  intro h
  obtain ⟨v, hv, -⟩ := h
  rw [show jsParseFloat nanAmountForm.targetAmount = none from by decide] at hv
  exact Option.noConfusion hv

/-- Claim C1 (amended): for every form state, the basic-info step returns
the message of the first failing check, evaluated with short-circuit in this
order: campaign type selected; trimmed title non-empty and title length ≥ 3;
category non-empty; target amount non-empty and not parsing to a number ≤ 0
(a field with no parseable numeric prefix passes); then (individual variant)
trimmed beneficiary name non-empty; trimmed phone number non-empty with
length in [10, 20]; trimmed residential address non-empty with length ≥ 5;
or (charity variant) trimmed organization name non-empty; trimmed contact
person name non-empty; trimmed contact phone non-empty with length in
[10, 20]; trimmed official address non-empty with length ≥ 5.  It succeeds
(allowing progression to the next step) iff all checks pass. -/
theorem basicInfo_validation_first_failing_check (fd : FormData) :
    validateStep 1 fd = firstFailure (basicInfoChecks fd) ∧
    (validateStep 1 fd = none ↔ ∀ p ∈ basicInfoChecks fd, p.1 = true) := by
  refine ⟨validateStep1_eq_firstFailure fd, ?_⟩
  rw [validateStep1_eq_firstFailure fd]
  exact firstFailure_eq_none_iff _

/-! ### Claim C2 — shape of a successfully created record -/

/-- Claim C2: for every successful individual or charity creation, the
resulting Stored Campaign has `raised_amount = 0`, `status = "active"`,
`created_at` set to the creation time, and `id` equal to the content
address (`cid`) returned by the backend, and this record is prepended
(newest-first by insertion) to the local index. -/
theorem created_record_shape (data : IndividualCampaignCreateRequest)
    (dataC : CharityCampaignCreateRequest) (res : CreateResponse) (now : Int)
    (idx : List MockCampaign) :
    (∃ r, createIndividualCampaign data (.ok res) now idx = (.ok res, r :: idx) ∧
      r.raised_amount = ⟨0, 0⟩ ∧ r.raised_amount.toRat = 0 ∧
      r.status = .active ∧ r.created_at = now ∧ r.id = res.cid) ∧
    (∃ r, createCharityCampaign dataC (.ok res) now idx = (.ok res, r :: idx) ∧
      r.raised_amount = ⟨0, 0⟩ ∧ r.raised_amount.toRat = 0 ∧
      r.status = .active ∧ r.created_at = now ∧ r.id = res.cid) := by
  constructor
  · exact ⟨_, rfl, rfl, by simp [DecimalNum.toRat], rfl, rfl, rfl⟩
  · exact ⟨_, rfl, rfl, by simp [DecimalNum.toRat], rfl, rfl, rfl⟩

/-! ### Claim C3 — fail-fast sequential uploads -/

theorem uploadLoop_first_failure (uploads : Nat → Except String CampaignDocument) :
    ∀ (files : List String) (i k : Nat) (hk : k < files.length),
      (∀ j, j < k → ∃ d, uploads (i + j) = .ok d) →
      (∃ e, uploads (i + k) = .error e) →
      uploadLoop uploads i files =
        (.error ("Failed to upload document: " ++ files.get ⟨k, hk⟩), k + 1) := by
  intro files
  induction files with
  | nil =>
    intro i k hk
    exact absurd hk (by simp)
  | cons f rest ih =>
    intro i k hk hok hfail
    cases k with
    | zero =>
      obtain ⟨e, he⟩ := hfail
      rw [Nat.add_zero] at he
      simp [uploadLoop, he]
    | succ k2 =>
      obtain ⟨d0, hd0⟩ := hok 0 (Nat.succ_pos _)
      rw [Nat.add_zero] at hd0
      have hrec := ih (i + 1) k2 (Nat.lt_of_succ_lt_succ hk)
        (fun j hj => by
          have h := hok (j + 1) (Nat.succ_lt_succ hj)
          rwa [show i + (j + 1) = i + 1 + j by omega] at h)
        (by
          obtain ⟨e, he⟩ := hfail
          exact ⟨e, by rwa [show i + (k2 + 1) = i + 1 + k2 by omega] at he⟩)
      simp [uploadLoop, hd0, hrec]

/-- Claim C3: during submission, document uploads are issued sequentially
one file at a time, and the first upload failure aborts the remaining
uploads and the whole submission: exactly the first `k + 1` uploads are
attempted, the surfaced outcome is the upload error, no campaign-creation
request is sent, and no record is added to the local index. -/
theorem submission_upload_fail_fast (fd : FormData)
    (uploads : Nat → Except String CampaignDocument)
    (reply : BackendReply CreateResponse) (now : Int) (idx : List MockCampaign)
    (k : Nat) (hk : k < fd.documents.length)
    (hok : ∀ j, j < k → ∃ d, uploads j = .ok d)
    (hfail : ∃ e, uploads k = .error e) :
    handleSubmit fd uploads reply now idx =
      { outcome := .error ("Failed to upload document: " ++ fd.documents.get ⟨k, hk⟩)
        indexAfter := idx
        uploadsAttempted := k + 1
        createRequested := false } := by
  have h := uploadLoop_first_failure uploads fd.documents 0 k hk
    (fun j hj => by simpa using hok j hj) (by simpa using hfail)
  unfold handleSubmit
  rw [h]

/-- Claim C3, witness: with three documents of which the second upload
fails, the submission stops after two attempted uploads, surfaces the error
for `b.pdf`, sends no creation request and leaves the empty index
unchanged. -/
theorem submission_upload_fail_fast_witness :
    handleSubmit threeDocsForm uploadsSecondFails (.ok sampleRes) 0 [] =
      { outcome := .error "Failed to upload document: b.pdf"
        indexAfter := []
        uploadsAttempted := 2
        createRequested := false } := by
  have h := submission_upload_fail_fast threeDocsForm uploadsSecondFails
    (.ok sampleRes) 0 [] 1 (by decide)
    (fun j hj => by
      have hj0 : j = 0 := by omega
      subst hj0
      exact ⟨sampleDoc, rfl⟩)
    ⟨"Upload failed", rfl⟩
  exact h

/-! ### Claim C4 — ordering step of the list engine -/

theorem priorityRel_implies {a b : Campaign} (h : priorityRel a b) :
    (b.isHighPriority = true → a.isHighPriority = true) ∧
    (a.isHighPriority = b.isHighPriority → a.daysLeft ≤ b.daysLeft) := by
  unfold priorityRel at h
  by_cases hc : a.isHighPriority = b.isHighPriority
  · rw [if_neg (not_not_intro hc)] at h
    exact ⟨fun hb => by rw [hc]; exact hb, fun _ => h⟩
  · rw [if_pos hc] at h
    exact ⟨fun _ => h, fun heq => absurd heq hc⟩

/-- Claim C4: for every loaded campaign collection the ordering step of the
list engine sorts "newest" by `created_at` descending, "funded" by
`raised_amount` descending, and "priority" with high-priority entries before
normal ones and days-remaining ascending within each tier (each a
permutation of the input); in particular, for `created_at` values
1 < 2 < 3 "newest" yields [3, 2, 1], for `raised_amount` values
[10, 50, 5] "funded" yields [50, 10, 5], and with one high-priority and two
normal campaigns of equal days-left "priority" places the high-priority one
first. -/
theorem sort_engine_correct (l : List Campaign) :
    ((sortCampaigns .newest l).Perm l ∧
      (sortCampaigns .newest l).Pairwise (fun a b => b.createdAt ≤ a.createdAt)) ∧
    ((sortCampaigns .funded l).Perm l ∧
      (sortCampaigns .funded l).Pairwise
        (fun a b => b.raised.toRat ≤ a.raised.toRat)) ∧
    ((sortCampaigns .priority l).Perm l ∧
      (sortCampaigns .priority l).Pairwise (fun a b =>
        (b.isHighPriority = true → a.isHighPriority = true) ∧
        (a.isHighPriority = b.isHighPriority → a.daysLeft ≤ b.daysLeft))) ∧
    (sortCampaigns .newest [campT1, campT2, campT3] = [campT3, campT2, campT1] ∧
      sortCampaigns .funded [campR10, campR50, campR5] = [campR50, campR10, campR5] ∧
      (sortCampaigns .priority [campNorm1, campHigh, campNorm2]).head? =
        some campHigh) := by
  refine ⟨⟨List.perm_insertionSort _ _, ?_⟩, ⟨List.perm_insertionSort _ _, ?_⟩,
    ⟨List.perm_insertionSort _ _, ?_⟩, by decide, by decide, by decide⟩
  · exact List.sorted_insertionSort newestRel l
  · exact (List.sorted_insertionSort fundedRel l).imp
      (fun h => (DecimalNum.vle_iff_toRat_le _ _).mp h)
  · exact (List.sorted_insertionSort priorityRel l).imp
      (fun h => priorityRel_implies h)

/-! ### Claim C5 — days remaining -/

/-- Claim C5: for every campaign record the derived days-remaining equals
the ceiling of (end date − now) divided by one day, floored at 0, where the
end date is the explicit `end_date` when present and otherwise
`created_at` plus `duration_days` days; a record with neither (unparseable
duration) has no numeric days-remaining. -/
theorem days_remaining_formula (c : MockCampaign) (now : Int) :
    (∀ e, c.end_date = some e →
      daysLeftOf now c = some (max 0 ⌈((e : ℚ) - (now : ℚ)) / 86400000⌉)) ∧
    (c.end_date = none → ∀ d, c.duration_days = some d →
      daysLeftOf now c =
        some (max 0
          ⌈(((c.created_at : ℚ) + (d : ℚ) * 86400000) - (now : ℚ)) / 86400000⌉)) ∧
    (c.end_date = none → c.duration_days = none → daysLeftOf now c = none) := by
  refine ⟨?_, ?_, ?_⟩
  · intro e he
    unfold daysLeftOf endDateMs
    rw [he, Option.map_some']
    rw [show ((1000 * 60 * 60 * 24 : Int)) = ((86400000 : ℕ) : Int) by norm_num,
      jsCeilDiv_eq_ceil _ _ (by norm_num)]
    congr 3
    push_cast
    ring
  · intro he d hd
    unfold daysLeftOf endDateMs
    rw [he, hd, Option.map_some', Option.map_some']
    rw [show ((1000 * 60 * 60 * 24 : Int)) = ((86400000 : ℕ) : Int) by norm_num,
      jsCeilDiv_eq_ceil _ _ (by norm_num)]
    congr 3
    push_cast
    ring
  · intro he hd
    unfold daysLeftOf endDateMs
    rw [he, hd]
    rfl

/-- Claim C5, witness: a record created at time 0 with a thirty-day
duration and no explicit end date evaluates, at time 0, to the formula's
value. -/
theorem days_remaining_formula_witness :
    daysLeftOf 0 sampleStored =
      some (max 0
        ⌈(((sampleStored.created_at : ℚ) + ((30 : ℤ) : ℚ) * 86400000) -
          ((0 : ℤ) : ℚ)) / 86400000⌉) :=
  (days_remaining_formula sampleStored 0).2.1 rfl 30 rfl

/-! ### Claim C6 — local-index round trip -/

/-- Claim C6: a campaign appended to the local index is retrievable by its
id via the get operation, which performs a linear scan for id equality over
the index; an id not present in the index yields a not-found result. -/
theorem local_index_roundtrip (c : MockCampaign) (idx : List MockCampaign)
    (id : String) :
    getCampaign c.id (saveToLocalIndex c idx) = some c ∧
    ((∀ x ∈ idx, x.id ≠ id) → getCampaign id idx = none) := by
  constructor
  · unfold getCampaign saveToLocalIndex
    rw [List.find?_cons_of_pos _ (by simp)]
  · intro h
    unfold getCampaign
    rw [List.find?_eq_none]
    intro x hx
    simpa using h x hx

/-- Claim C6, witness: the sample record is retrievable right after being
saved, and an absent id is not found. -/
theorem local_index_roundtrip_witness :
    getCampaign sampleStored.id (saveToLocalIndex sampleStored []) =
      some sampleStored ∧
    getCampaign "missing" [] = none :=
  ⟨(local_index_roundtrip sampleStored [] "missing").1,
   (local_index_roundtrip sampleStored [] "missing").2 (by simp)⟩

/-! ### Claim C7 — failure path of the create call -/

/-- Claim C7: when the external create call's response indicates failure,
the operation fails with an error carrying the backend's error detail text
(the generic message when the body is not decodable as an error object, the
HTTP-status fallback when the decoded body has no usable detail), and the
local index is left unchanged on the failure path; the charity variant
surfaces the same message. -/
theorem create_failure_error_and_index (data : IndividualCampaignCreateRequest)
    (dataC : CharityCampaignCreateRequest) (status : Nat)
    (body : Option ErrorBody) (now : Int) (idx : List MockCampaign) :
    ((createIndividualCampaign data (.fail status body) now idx).2 = idx ∧
      (createCharityCampaign dataC (.fail status body) now idx).2 = idx) ∧
    (body = none →
      (createIndividualCampaign data (.fail status body) now idx).1 =
        .error "An error occurred") ∧
    (∀ d, d ≠ "" → body = some ⟨some d⟩ →
      (createIndividualCampaign data (.fail status body) now idx).1 = .error d) ∧
    ((body = some ⟨none⟩ ∨ body = some ⟨some ""⟩) →
      (createIndividualCampaign data (.fail status body) now idx).1 =
        .error ("HTTP " ++ toString status)) ∧
    ((createCharityCampaign dataC (.fail status body) now idx).1 =
      (createIndividualCampaign data (.fail status body) now idx).1) := by
  refine ⟨⟨rfl, rfl⟩, ?_, ?_, ?_, rfl⟩
  · intro h
    subst h
    rfl
  · intro d hd hb
    subst hb
    simp [createIndividualCampaign, requestResult, hd]
  · intro h
    rcases h with h | h <;> subst h <;> rfl

/-- Claim C7, witness: a failed call with detail "boom" leaves the index
unchanged and surfaces "boom"; an undecodable body surfaces the generic
message. -/
theorem create_failure_error_and_index_witness :
    (createIndividualCampaign indSampleRequest
        (.fail 500 (some ⟨some "boom"⟩)) 0 []).2 = [] ∧
    (createIndividualCampaign indSampleRequest
        (.fail 500 (some ⟨some "boom"⟩)) 0 []).1 = .error "boom" ∧
    (createIndividualCampaign indSampleRequest (.fail 500 none) 0 []).1 =
      .error "An error occurred" :=
  ⟨(create_failure_error_and_index indSampleRequest charSampleRequest 500
      (some ⟨some "boom"⟩) 0 []).1.1,
   (create_failure_error_and_index indSampleRequest charSampleRequest 500
      (some ⟨some "boom"⟩) 0 []).2.2.1 "boom" (by decide) rfl,
   (create_failure_error_and_index indSampleRequest charSampleRequest 500
      none 0 []).2.1 rfl⟩

/-! ### Claim C8 — duration bounds -/

theorem handleSubmit_ok_record (fd : FormData)
    (uploads : Nat → Except String CampaignDocument)
    (reply : BackendReply CreateResponse) (now : Int) (idx : List MockCampaign)
    (res : CreateResponse)
    (hout : (handleSubmit fd uploads reply now idx).outcome = .ok res) :
    ∃ r, (handleSubmit fd uploads reply now idx).indexAfter = r :: idx ∧
      r.priority = .normal ∧ r.duration_days = jsParseInt fd.durationDays ∧
      r.raised_amount = ⟨0, 0⟩ ∧ r.status = .active ∧ r.created_at = now ∧
      r.id = res.cid := by
  rcases hu : uploadLoop uploads 0 fd.documents with ⟨ur, n⟩
  cases ur with
  | error e =>
    rw [show handleSubmit fd uploads reply now idx = ⟨.error e, idx, n, false⟩
      from by unfold handleSubmit; rw [hu]] at hout
    exact absurd hout (by simp)
  | ok docs =>
    unfold handleSubmit at hout ⊢
    simp only [hu] at hout ⊢
    by_cases hvar : fd.campaignType = some CampaignType.individual
    · simp only [if_pos hvar] at hout ⊢
      cases reply with
      | fail status body =>
        exact absurd hout (by simp [createIndividualCampaign, requestResult])
      | ok res2 =>
        have hres : res2 = res := by
          simpa [createIndividualCampaign, requestResult] using hout
        subst hres
        exact ⟨_, rfl, rfl, rfl, rfl, rfl, rfl, rfl⟩
    · simp only [if_neg hvar] at hout ⊢
      cases reply with
      | fail status body =>
        exact absurd hout (by simp [createCharityCampaign, requestResult])
      | ok res2 =>
        have hres : res2 = res := by
          simpa [createCharityCampaign, requestResult] using hout
        subst hres
        exact ⟨_, rfl, rfl, rfl, rfl, rfl, rfl, rfl⟩

/-- Claim C8, counterexample: a form whose duration field holds `"400"`
passes every step validation (no duration check exists anywhere in the
wizard) and submits successfully, storing a campaign whose `duration_days`
is 400, outside [1, 365]. -/
theorem duration_days_bound_counterexample :
    validateStep 1 duration400Form = none ∧
    validateStep 2 duration400Form = none ∧
    (handleSubmit duration400Form noUploads (.ok sampleRes) 0 []).outcome =
      .ok sampleRes ∧
    ((handleSubmit duration400Form noUploads (.ok sampleRes) 0 []).indexAfter.map
      MockCampaign.duration_days) = [some 400] ∧
    ¬ ((1 : ℤ) ≤ 400 ∧ (400 : ℤ) ≤ 365) :=
  ⟨by decide, by decide, by decide, by decide, by decide⟩

/-- Claim C8 (amended): the creation flow performs no client-side range
check on the duration: a successfully created record's `duration_days` is
exactly `parseInt` of the entered duration field, so it lies in [1, 365]
exactly when the entered value parses into that range; the untouched
default `"90"` parses to 90, which lies in the range. -/
theorem duration_days_passthrough (fd : FormData)
    (uploads : Nat → Except String CampaignDocument)
    (reply : BackendReply CreateResponse) (now : Int) (idx : List MockCampaign)
    (res : CreateResponse)
    (hout : (handleSubmit fd uploads reply now idx).outcome = .ok res) :
    (∃ r, (handleSubmit fd uploads reply now idx).indexAfter = r :: idx ∧
      r.duration_days = jsParseInt fd.durationDays) ∧
    (jsParseInt emptyForm.durationDays = some 90 ∧
      (1 : ℤ) ≤ 90 ∧ (90 : ℤ) ≤ 365) := by
  obtain ⟨r, h1, _, h3, _⟩ := handleSubmit_ok_record fd uploads reply now idx res hout
  exact ⟨⟨r, h1, h3⟩, by decide, by decide, by decide⟩

/-- Claim C8 (amended), witness: the duration-400 submission stores
`parseInt "400"`, and the default duration parses to 90. -/
theorem duration_days_passthrough_witness :
    (∃ r, (handleSubmit duration400Form noUploads (.ok sampleRes) 0
        []).indexAfter = r :: ([] : List MockCampaign) ∧
      r.duration_days = jsParseInt duration400Form.durationDays) ∧
    (jsParseInt emptyForm.durationDays = some 90 ∧
      (1 : ℤ) ≤ 90 ∧ (90 : ℤ) ≤ 365) :=
  duration_days_passthrough duration400Form noUploads (.ok sampleRes) 0 []
    sampleRes (by decide)

/-! ### Claim C9 — identity-field groups -/

/-- Claim C9, counterexample: the stored record produced by an individual
creation populates no identity field at all — the client-side record drops
the beneficiary data (and carries no charity data either) — so "exactly one
of the two identity-field groups is populated" fails on it. -/
theorem identity_group_population_counterexample :
    ∃ r, (createIndividualCampaign indSampleRequest (.ok sampleRes) 0 []).2 = [r] ∧
      r.campaign_type = .individual ∧
      r.beneficiary_name = none ∧ r.phone_number = none ∧
      r.residential_address = none ∧ r.organization_name = none ∧
      r.contact_person_name = none ∧ r.contact_phone_number = none ∧
      r.official_address = none ∧
      ¬ individualGroupPopulated r ∧ ¬ charityGroupPopulated r ∧
      ¬ exactlyOneGroupPopulated r :=
  ⟨_, rfl, rfl, rfl, rfl, rfl, rfl, rfl, rfl, rfl, by decide, by decide, by decide⟩

/-- Claim C9 (amended): the typed creation payloads carry exactly the
identity fields of their variant, and the stored record registers that
variant in `campaign_type`; client-side the record persists none of the
identity fields except the (public) organization name for charity
creations; and no operation of the subsystem modifies or removes an
existing record, so `campaign_type` is immutable after creation. -/
theorem identity_fields_by_variant_and_immutability
    (data : IndividualCampaignCreateRequest)
    (dataC : CharityCampaignCreateRequest) (res : CreateResponse) (now : Int)
    (idx : List MockCampaign) :
    (∃ r, (createIndividualCampaign data (.ok res) now idx).2 = r :: idx ∧
      r.campaign_type = .individual ∧ r.beneficiary_name = none ∧
      r.phone_number = none ∧ r.residential_address = none ∧
      r.organization_name = none ∧ r.contact_person_name = none ∧
      r.contact_phone_number = none ∧ r.official_address = none) ∧
    (∃ r, (createCharityCampaign dataC (.ok res) now idx).2 = r :: idx ∧
      r.campaign_type = .charity ∧
      r.organization_name = some dataC.organization_name ∧
      r.beneficiary_name = none ∧ r.phone_number = none ∧
      r.residential_address = none ∧ r.contact_person_name = none ∧
      r.contact_phone_number = none ∧ r.official_address = none) ∧
    (∀ op : Op, List.IsSuffix idx (applyOp op idx)) := by
  refine ⟨⟨_, rfl, rfl, rfl, rfl, rfl, rfl, rfl, rfl, rfl⟩,
    ⟨_, rfl, rfl, rfl, rfl, rfl, rfl, rfl, rfl, rfl⟩, ?_⟩
  intro op
  cases op with
  | createInd data2 reply2 now2 =>
    cases reply2 with
    | ok res2 => exact List.suffix_cons _ _
    | fail status body => exact List.suffix_refl _
  | createChar data2 reply2 now2 =>
    cases reply2 with
    | ok res2 => exact List.suffix_cons _ _
    | fail status body => exact List.suffix_refl _
  | listOp params => exact List.suffix_refl _
  | getOp id => exact List.suffix_refl _

/-! ### Claim C10 — wizard campaigns are never high priority -/

/-- Claim C10: the submit handler hardcodes priority 'normal' in both
payloads and the create operations default a missing priority to 'normal',
so every wizard-created stored campaign has priority "normal"; its frontend
view is never high-priority, is never retained by the high-priority-only
filter, and never occupies the high-priority prefix of the "priority"
sort. -/
theorem wizard_created_priority_normal (fd : FormData)
    (uploads : Nat → Except String CampaignDocument)
    (reply : BackendReply CreateResponse) (now : Int) (idx : List MockCampaign)
    (res : CreateResponse)
    (hout : (handleSubmit fd uploads reply now idx).outcome = .ok res) :
    (∃ r, (handleSubmit fd uploads reply now idx).indexAfter = r :: idx ∧
      r.priority = .normal) ∧
    (∀ data : IndividualCampaignCreateRequest, data.priority = none →
      ∀ (res2 : CreateResponse) (now2 : Int) (idx2 : List MockCampaign),
      ∃ r, (createIndividualCampaign data (.ok res2) now2 idx2).2 = r :: idx2 ∧
        r.priority = .normal) ∧
    (∀ dataC : CharityCampaignCreateRequest, dataC.priority = none →
      ∀ (res2 : CreateResponse) (now2 : Int) (idx2 : List MockCampaign),
      ∃ r, (createCharityCampaign dataC (.ok res2) now2 idx2).2 = r :: idx2 ∧
        r.priority = .normal) ∧
    (∀ c : MockCampaign, c.priority = .normal →
      ∀ (now2 : Int) (camp : Campaign), apiToFrontendCampaign now2 c = some camp →
      camp.isHighPriority = false ∧
      (∀ l : List Campaign, camp ∉ l.filter (fun x => x.isHighPriority)) ∧
      (∀ l : List Campaign,
        camp ∉ (sortCampaigns .priority l).takeWhile (fun x => x.isHighPriority))) := by
  refine ⟨?_, ?_, ?_, ?_⟩
  · obtain ⟨r, h1, h2, _⟩ := handleSubmit_ok_record fd uploads reply now idx res hout
    exact ⟨r, h1, h2⟩
  · intro data2 hp res2 now2 idx2
    refine ⟨_, rfl, ?_⟩
    simp only [hp]
    rfl
  · intro dataC2 hp res2 now2 idx2
    refine ⟨_, rfl, ?_⟩
    simp only [hp]
    rfl
  · intro c hpri now2 camp hconv
    unfold apiToFrontendCampaign at hconv
    rcases hdl : daysLeftOf now2 c with _ | dl
    · rw [hdl] at hconv
      exact absurd hconv (by simp)
    · rw [hdl, Option.map_some'] at hconv
      injection hconv with hcamp
      subst hcamp
      have hhp : (decide (c.priority = PriorityLevel.urgent)) = false := by
        simp [hpri]
      refine ⟨hhp, ?_, ?_⟩
      · intro l hm
        have hfilt := (List.mem_filter.mp hm).2
        simp only [hhp] at hfilt
        exact Bool.noConfusion hfilt
      · intro l hm
        have ht := List.mem_takeWhile_imp hm
        simp only [hhp] at ht
        exact Bool.noConfusion ht

/-- Claim C10, witness: the concrete duration-400 submission stores a
normal-priority record; the frontend view of the stored sample record is
not high-priority, is dropped by the high-priority-only filter, and does
not sit in the high-priority prefix of the "priority" sort. -/
theorem wizard_created_priority_normal_witness :
    (∃ r, (handleSubmit duration400Form noUploads (.ok sampleRes) 0
        []).indexAfter = r :: ([] : List MockCampaign) ∧
      r.priority = .normal) ∧
    sampleFrontend.isHighPriority = false ∧
    sampleFrontend ∉
      List.filter (fun x => x.isHighPriority) [campHigh, sampleFrontend] ∧
    sampleFrontend ∉
      List.takeWhile (fun x => x.isHighPriority)
        (sortCampaigns .priority [sampleFrontend, campHigh]) := by
  have h := wizard_created_priority_normal duration400Form noUploads
    (.ok sampleRes) 0 [] sampleRes (by decide)
  have h4 := h.2.2.2 sampleStored rfl 0 sampleFrontend (by decide)
  exact ⟨h.1, h4.1, h4.2.1 [campHigh, sampleFrontend],
    h4.2.2 [sampleFrontend, campHigh]⟩

end HeartChain
